import Mathlib

/-!
# Verification of the SEO Scoring Engine (`src/app/page.tsx`)

A shallow embedding of the scoring engine of the `seo-scorer` repository:
the composite-score computation `calculateSEOMetrics`, the recommendation
derivation `generateRecommendations`, the overall status classifier
`getOverallStatus`, and the UI-level state transition `calculateSeoScore`.
Numbers are modelled as exact rationals; `Math.round` as `jsRound`;
JavaScript `String.prototype.split` with a one-character separator as
`jsSplit` (splitting at every occurrence of the separator, keeping empty
pieces, exactly as `split` does).
-/

namespace SeoScorer

/-- JavaScript `Math.round`: round half toward positive infinity. -/
def jsRound (q : ℚ) : ℤ := ⌊q + 1/2⌋

/-- Split a character list at every character satisfying `p`, keeping empty
pieces, as JavaScript `split` does with a one-character separator. -/
def splitChars (p : Char → Bool) : List Char → List (List Char)
  | [] => [[]]
  | c :: cs =>
    match splitChars p cs with
    | [] => [[]]
    | t :: ts => if p c then [] :: t :: ts else (c :: t) :: ts

/-- JavaScript `s.split(sep)` for a one-character separator `sep`. -/
def jsSplit (sep : Char) (s : String) : List String :=
  (splitChars (fun c => c == sep) s.data).map (fun l => String.mk l)

/-- JavaScript `s.toLowerCase()` (character-wise lowering). -/
def jsToLower (s : String) : String := String.mk (s.data.map Char.toLower)

/-- Per-platform social data: `{ exists: boolean; followers?: number }`.
The `exists` field of the source is called `exists_` here because `exists`
is a Lean keyword. -/
structure PlatformData where
  exists_ : Bool
  followers : ℕ
  deriving DecidableEq

/-- The four tracked social platforms, `socialMedia` in the source. -/
structure SocialMediaData where
  facebook : PlatformData
  instagram : PlatformData
  twitter : PlatformData
  linkedin : PlatformData
  deriving DecidableEq

/-- One review source: `{ rating: number; count: number }`. -/
structure ReviewData where
  rating : ℚ
  count : ℕ
  deriving DecidableEq

/-- The two review sources, `reviews` in the source. -/
structure ReviewsData where
  google : ReviewData
  yelp : ReviewData
  deriving DecidableEq

/-- The `searchRanking` part of the simulated API response. -/
structure SearchRanking where
  googlePosition : ℕ
  monthlySearches : ℕ
  competitorRanks : List ℕ
  deriving DecidableEq

/-- The raw signals returned by `fetchSEOData`. -/
structure RawSignals where
  searchRanking : SearchRanking
  socialMedia : SocialMediaData
  reviews : ReviewsData
  deriving DecidableEq

/-- The seven sub-scores, the `details` field of `SeoScore`. -/
structure ScoreDetails where
  nameLength : ℚ
  addressCompleteness : ℚ
  keywordOptimization : ℚ
  googleRanking : ℚ
  socialMediaPresence : ℚ
  localSEO : ℚ
  onlineReviews : ℚ
  deriving DecidableEq

/-- The `searchData` field of `SeoScore`. -/
structure SearchData where
  googleRank : ℕ
  monthlySearches : ℕ
  competitorRanking : List ℕ
  deriving DecidableEq

/-- The composite score object returned by `calculateSEOMetrics`. -/
structure SeoScore where
  total : ℤ
  details : ScoreDetails
  searchData : SearchData
  socialMedia : SocialMediaData
  reviews : ReviewsData
  deriving DecidableEq

/-- Sub-score `score.nameLength` of `calculateSEOMetrics` (lines 90-93). -/
def nameLengthScore (name : String) : ℚ :=
  if 0 < name.length then
    if 15 ≤ name.length ∧ name.length ≤ 30 then 30
    else if name.length < 15 then ((jsRound ((name.length : ℚ) / 15 * 30) : ℤ) : ℚ)
    else ((jsRound (40 / (name.length : ℚ) * 30) : ℤ) : ℚ)
  else 0

/-- Token count `keywords.length` of line 95: `businessName.toLowerCase().split(' ').length`. -/
def keywordCount (name : String) : ℕ := (jsSplit ' ' (jsToLower name)).length

/-- Sub-score `score.keywordOptimization` of `calculateSEOMetrics` (lines 95-96). -/
def keywordOptimizationScore (name : String) : ℚ :=
  if 0 < name.length then ((min (keywordCount name * 10) 30 : ℕ) : ℚ) else 0

/-- Segment count `addressParts` of line 100: `businessAddress.split(',').length`. -/
def addressPartsCount (addr : String) : ℕ := (jsSplit ',' addr).length

/-- Sub-score `score.addressCompleteness` of `calculateSEOMetrics` (lines 99-102). -/
def addressCompletenessScore (addr : String) : ℚ :=
  if 0 < addr.length then ((min (addressPartsCount addr * 10) 40 : ℕ) : ℚ) else 0

/-- Sub-score `score.googleRanking` of line 105: `Math.max(0, 100 - googlePosition)`. -/
def googleRankingScore (googlePosition : ℕ) : ℚ :=
  ((max 0 (100 - (googlePosition : ℤ)) : ℤ) : ℚ)

/-- Count `existingPlatforms` of lines 108-111: how many of the four platforms exist. -/
def existingPlatformsCount (sm : SocialMediaData) : ℕ :=
  (([sm.facebook, sm.instagram, sm.twitter, sm.linkedin].filter
      (fun p => p.exists_)).length)

/-- Sub-score `score.socialMediaPresence` of line 112. -/
def socialMediaPresenceScore (sm : SocialMediaData) : ℚ :=
  ((existingPlatformsCount sm : ℚ) / 4) * 100

/-- Sub-score `score.localSEO` of lines 114-117. -/
def localSEOScore (rv : ReviewsData) : ℚ :=
  min 100 (((rv.google.rating + rv.yelp.rating) / 2) * 10 +
    (((rv.google.count + rv.yelp.count : ℕ) : ℚ) / 10))

/-- Sub-score `score.onlineReviews` of lines 120-123. -/
def onlineReviewsScore (rv : ReviewsData) : ℚ :=
  min 100 ((rv.google.rating / 5) * 50 + (rv.yelp.rating / 5) * 50)

/-- The `score` record built by `calculateSEOMetrics` (lines 79-123). -/
def scoreDetails (name addr : String) (raw : RawSignals) : ScoreDetails where
  nameLength := nameLengthScore name
  addressCompleteness := addressCompletenessScore addr
  keywordOptimization := keywordOptimizationScore name
  googleRanking := googleRankingScore raw.searchRanking.googlePosition
  socialMediaPresence := socialMediaPresenceScore raw.socialMedia
  localSEO := localSEOScore raw.reviews
  onlineReviews := onlineReviewsScore raw.reviews

/-- Sum `Object.values(score).reduce((a, b) => a + b, 0)` of line 125: the sum of
the seven sub-scores in declaration order. -/
def detailsSum (d : ScoreDetails) : ℚ :=
  d.nameLength + d.addressCompleteness + d.keywordOptimization + d.googleRanking +
    d.socialMediaPresence + d.localSEO + d.onlineReviews

/-- The pure core of `calculateSEOMetrics` (lines 74-141), with the fetched
`apiData` passed explicitly. -/
def calculateSEOMetrics (name addr : String) (raw : RawSignals) : SeoScore :=
  let score := scoreDetails name addr raw
  { total := jsRound (detailsSum score / 7)
    details := score
    searchData :=
      { googleRank := raw.searchRanking.googlePosition
        monthlySearches := raw.searchRanking.monthlySearches
        competitorRanking := raw.searchRanking.competitorRanks }
    socialMedia := raw.socialMedia
    reviews := raw.reviews }

/-- Possible `status` values of a `Recommendation`. -/
inductive RecStatus where
  | good
  | warning
  | poor
  deriving DecidableEq

/-- Possible `priority` values of a `Recommendation`. -/
inductive RecPriority where
  | high
  | medium
  | low
  deriving DecidableEq

/-- The `Recommendation` interface (lines 33-39). -/
structure Recommendation where
  category : String
  status : RecStatus
  message : String
  improvement : String
  priority : RecPriority
  deriving DecidableEq

/-- List `missingSocialPlatforms` of lines 158-160: names of platforms whose data
has `exists = false`, in `Object.entries` (declaration) order. -/
def missingSocialPlatforms (sm : SocialMediaData) : List String :=
  ((([("facebook", sm.facebook), ("instagram", sm.instagram),
      ("twitter", sm.twitter), ("linkedin", sm.linkedin)]).filter
      (fun p => !p.2.exists_)).map (fun p => p.1))

/-- The recommendation pushed by rule 1 (lines 147-155). -/
def googleRankingRec (score : SeoScore) : Recommendation where
  category := "Search Engine Ranking"
  status := RecStatus.poor
  message := "Current Google Ranking: Position " ++ toString score.searchData.googleRank
  improvement := "Improve website content, build quality backlinks, and optimize for relevant keywords"
  priority := RecPriority.high

/-- The recommendation pushed by rule 2 (lines 162-170). -/
def socialMediaRec (score : SeoScore) : Recommendation where
  category := "Social Media Presence"
  status := RecStatus.warning
  message := "Missing presence on: " ++
    String.intercalate ", " (missingSocialPlatforms score.socialMedia)
  improvement := "Create and maintain active profiles on missing social media platforms"
  priority := RecPriority.medium

/-- The recommendation pushed by rule 3 (lines 173-181). -/
def onlineReviewsRec (score : SeoScore) : Recommendation where
  category := "Online Reviews"
  status := RecStatus.warning
  message := "Current reviews: Google (" ++ toString score.reviews.google.count ++
    "), Yelp (" ++ toString score.reviews.yelp.count ++ ")"
  improvement := "Encourage satisfied customers to leave reviews and respond to existing reviews"
  priority := RecPriority.high

/-- Function `generateRecommendations` (lines 143-187): three rules, each pushing at
most one recommendation onto `recs`, in a fixed order. -/
def generateRecommendations (score : SeoScore) : List Recommendation :=
  let recs : List Recommendation := []
  let recs := if score.details.googleRanking < 70 then
    recs ++ [googleRankingRec score] else recs
  let recs := if 0 < (missingSocialPlatforms score.socialMedia).length then
    recs ++ [socialMediaRec score] else recs
  let recs := if score.reviews.google.count < 100 ∨ score.reviews.yelp.count < 50 then
    recs ++ [onlineReviewsRec score] else recs
  recs

/-- The value returned by `getOverallStatus` (lines 204-208). -/
structure StatusBadge where
  text : String
  cssClass : String
  deriving DecidableEq

/-- Classifier `getOverallStatus` (lines 204-208). -/
def getOverallStatus (total : ℤ) : StatusBadge :=
  if total ≥ 70 then { text := "GOOD", cssClass := "bg-green-50 text-green-600" }
  else if total ≥ 40 then { text := "FAIR", cssClass := "bg-yellow-50 text-yellow-600" }
  else { text := "POOR", cssClass := "bg-red-50 text-red-600" }

/-- The UI state touched by `calculateSeoScore` (lines 69-72). -/
structure UIState where
  seoScore : Option SeoScore
  recommendations : List Recommendation
  error : Option String
  isCalculating : Bool

/-- Handler `calculateSeoScore` (lines 189-202) as a state transition: the outcome of
the data-source fetch is passed explicitly as an `Except` value. On success
the score and recommendations are replaced and the error cleared; on failure
only the error message is set; either way `isCalculating` ends up `false`. -/
def calculateSeoScore (st : UIState) (name addr : String)
    (fetched : Except Unit RawSignals) : UIState :=
  match fetched with
  | Except.ok raw =>
    let newScore := calculateSEOMetrics name addr raw
    { seoScore := some newScore
      recommendations := generateRecommendations newScore
      error := none
      isCalculating := false }
  | Except.error _ =>
    { st with
      error := some "Failed to calculate SEO score. Please try again."
      isCalculating := false }

/-- Token count read off the specification's words for the keyword rule:
the number of whitespace-separated tokens (maximal nonempty runs between
whitespace characters) of the lower-cased business name. Kept separate from
the source-derived `keywordCount` so the two notions can be compared. -/
def specWhitespaceTokenCount (name : String) : ℕ :=
  ((splitChars (fun c => c.isWhitespace) (jsToLower name).data).filter
      (fun t => !t.isEmpty)).length

/-- Replace the google position of a raw-signals snapshot, leaving the rest
unchanged; used to build concrete scoring inputs. -/
def withGooglePosition (raw : RawSignals) (p : ℕ) : RawSignals :=
  { raw with searchRanking := { raw.searchRanking with googlePosition := p } }

/-- A concrete raw-signals snapshot used to instantiate the theorems: good
position, all four platforms present, both review counts at their rule
thresholds. -/
def rawA : RawSignals where
  searchRanking := { googlePosition := 5, monthlySearches := 1200, competitorRanks := [3, 6, 9] }
  socialMedia :=
    { facebook := { exists_ := true, followers := 100 }
      instagram := { exists_ := true, followers := 100 }
      twitter := { exists_ := true, followers := 100 }
      linkedin := { exists_ := true, followers := 100 } }
  reviews := { google := { rating := 4, count := 120 }, yelp := { rating := 4, count := 60 } }

/-- Snapshot `rawA` with a poor google position, so that exactly the search-ranking
recommendation rule fires. -/
def rawLow : RawSignals := withGooglePosition rawA 80

/-- The invariant of claim C4: every sub-score lies in `[0, 100]`, the total
lies in `[0, 100]`, and the total is the rounded unweighted mean of the seven
sub-scores. -/
def scoreInvariant (s : SeoScore) : Prop :=
  (0 ≤ s.details.nameLength ∧ s.details.nameLength ≤ 100) ∧
  (0 ≤ s.details.addressCompleteness ∧ s.details.addressCompleteness ≤ 100) ∧
  (0 ≤ s.details.keywordOptimization ∧ s.details.keywordOptimization ≤ 100) ∧
  (0 ≤ s.details.googleRanking ∧ s.details.googleRanking ≤ 100) ∧
  (0 ≤ s.details.socialMediaPresence ∧ s.details.socialMediaPresence ≤ 100) ∧
  (0 ≤ s.details.localSEO ∧ s.details.localSEO ≤ 100) ∧
  (0 ≤ s.details.onlineReviews ∧ s.details.onlineReviews ≤ 100) ∧
  (0 ≤ s.total ∧ s.total ≤ 100) ∧
  s.total = jsRound (detailsSum s.details / 7)

/-! ## Helper lemmas -/

theorem jsRound_nonneg {q : ℚ} (h : 0 ≤ q) : 0 ≤ jsRound q := by
  unfold jsRound
  exact Int.le_floor.mpr (by push_cast; linarith)

theorem jsRound_le_hundred {q : ℚ} (h : q ≤ 100) : jsRound q ≤ 100 := by
  unfold jsRound
  have h2 : ⌊q + 1/2⌋ < 101 := Int.floor_lt.mpr (by push_cast; linarith)
  omega

theorem nameLengthScore_nonneg (name : String) : 0 ≤ nameLengthScore name := by
  unfold nameLengthScore
  split_ifs with h1 h2 h3
  · norm_num
  · exact_mod_cast jsRound_nonneg (by positivity)
  · exact_mod_cast jsRound_nonneg (by positivity)
  · exact le_refl 0

theorem nameLengthScore_le (name : String) : nameLengthScore name ≤ 100 := by
  unfold nameLengthScore
  split_ifs with h1 h2 h3
  · norm_num
  · have hle : ((name.length : ℚ)) ≤ 14 := by exact_mod_cast Nat.le_of_lt_succ h3
    have e : ((name.length : ℚ)) / 15 * 30 = (name.length : ℚ) * 2 := by ring
    exact_mod_cast jsRound_le_hundred (by rw [e]; linarith)
  · have hl : (31 : ℚ) ≤ (name.length : ℚ) := by
      have : 31 ≤ name.length := by omega
      exact_mod_cast this
    have hq : 40 / (name.length : ℚ) * 30 ≤ 100 := by
      rw [div_mul_eq_mul_div, div_le_iff₀ (by linarith)]
      linarith
    exact_mod_cast jsRound_le_hundred hq
  · norm_num

theorem addressCompletenessScore_nonneg (addr : String) :
    0 ≤ addressCompletenessScore addr := by
  unfold addressCompletenessScore
  split_ifs
  · positivity
  · exact le_refl 0

theorem addressCompletenessScore_le (addr : String) :
    addressCompletenessScore addr ≤ 100 := by
  unfold addressCompletenessScore
  split_ifs
  · have h40 : ((min (addressPartsCount addr * 10) 40 : ℕ) : ℚ) ≤ 40 := by
      exact_mod_cast Nat.min_le_right _ _
    linarith
  · norm_num

theorem keywordOptimizationScore_nonneg (name : String) :
    0 ≤ keywordOptimizationScore name := by
  unfold keywordOptimizationScore
  split_ifs
  · positivity
  · exact le_refl 0

theorem keywordOptimizationScore_le (name : String) :
    keywordOptimizationScore name ≤ 100 := by
  unfold keywordOptimizationScore
  split_ifs
  · have h30 : ((min (keywordCount name * 10) 30 : ℕ) : ℚ) ≤ 30 := by
      exact_mod_cast Nat.min_le_right _ _
    linarith
  · norm_num

theorem googleRankingScore_nonneg (p : ℕ) : 0 ≤ googleRankingScore p := by
  unfold googleRankingScore
  exact_mod_cast le_max_left 0 (100 - (p : ℤ))

theorem googleRankingScore_le (p : ℕ) : googleRankingScore p ≤ 100 := by
  unfold googleRankingScore
  have h : max 0 (100 - (p : ℤ)) ≤ 100 := max_le (by norm_num) (by omega)
  exact_mod_cast h

theorem existingPlatformsCount_le_four (sm : SocialMediaData) :
    existingPlatformsCount sm ≤ 4 := by
  unfold existingPlatformsCount
  exact le_trans (List.length_filter_le _ _) (by simp)

theorem socialMediaPresenceScore_nonneg (sm : SocialMediaData) :
    0 ≤ socialMediaPresenceScore sm := by
  unfold socialMediaPresenceScore
  positivity

theorem socialMediaPresenceScore_le (sm : SocialMediaData) :
    socialMediaPresenceScore sm ≤ 100 := by
  unfold socialMediaPresenceScore
  have h4 : ((existingPlatformsCount sm : ℚ)) ≤ 4 := by
    exact_mod_cast existingPlatformsCount_le_four sm
  have e : ((existingPlatformsCount sm : ℚ)) / 4 * 100 = (existingPlatformsCount sm : ℚ) * 25 := by
    ring
  rw [e]
  linarith

theorem localSEOScore_bounds (rv : ReviewsData) (hg0 : 0 ≤ rv.google.rating)
    (hy0 : 0 ≤ rv.yelp.rating) : 0 ≤ localSEOScore rv ∧ localSEOScore rv ≤ 100 := by
  unfold localSEOScore
  refine ⟨le_min (by norm_num) ?_, min_le_left _ _⟩
  have h2 : (0 : ℚ) ≤ (((rv.google.count + rv.yelp.count : ℕ) : ℚ) / 10) := by positivity
  linarith

theorem onlineReviewsScore_bounds (rv : ReviewsData) (hg0 : 0 ≤ rv.google.rating)
    (hy0 : 0 ≤ rv.yelp.rating) : 0 ≤ onlineReviewsScore rv ∧ onlineReviewsScore rv ≤ 100 := by
  unfold onlineReviewsScore
  refine ⟨le_min (by norm_num) (by linarith), min_le_left _ _⟩

theorem generateRecommendations_normal_form (score : SeoScore) :
    generateRecommendations score =
      (if score.details.googleRanking < 70 then [googleRankingRec score] else []) ++
      (if 0 < (missingSocialPlatforms score.socialMedia).length then [socialMediaRec score]
        else []) ++
      (if score.reviews.google.count < 100 ∨ score.reviews.yelp.count < 50 then
        [onlineReviewsRec score] else []) := by
  simp only [generateRecommendations]
  split_ifs <;> simp

theorem mem_generateRecommendations (score : SeoScore) (r : Recommendation)
    (h : r ∈ generateRecommendations score) :
    r = googleRankingRec score ∨ r = socialMediaRec score ∨ r = onlineReviewsRec score := by
  rw [generateRecommendations_normal_form score] at h
  rcases List.mem_append.mp h with h1 | h2
  · rcases List.mem_append.mp h1 with h3 | h4
    · left
      split at h3
      · simpa using h3
      · simp at h3
    · right; left
      split at h4
      · simpa using h4
      · simp at h4
  · right; right
    split at h2
    · simpa using h2
    · simp at h2

/-! ## Claim theorems -/

/-- C1: for every combination of business name, business address and raw
signals, the `total` field of the composite score equals the sum of the
seven sub-scores (nameLength, addressCompleteness, keywordOptimization,
googleRanking, socialMediaPresence, localSEO, onlineReviews) divided by 7
and rounded to the nearest integer, with no per-sub-score normalization
applied before averaging. -/
theorem c1_total_is_rounded_mean (name addr : String) (raw : RawSignals) :
    (calculateSEOMetrics name addr raw).total =
      jsRound (((calculateSEOMetrics name addr raw).details.nameLength +
        (calculateSEOMetrics name addr raw).details.addressCompleteness +
        (calculateSEOMetrics name addr raw).details.keywordOptimization +
        (calculateSEOMetrics name addr raw).details.googleRanking +
        (calculateSEOMetrics name addr raw).details.socialMediaPresence +
        (calculateSEOMetrics name addr raw).details.localSEO +
        (calculateSEOMetrics name addr raw).details.onlineReviews) / 7) := rfl

/-- C2: for every non-empty business name of length `L`, the nameLength
sub-score is 30 when `15 ≤ L ≤ 30`, `round(L/15 × 30)` when `L < 15`, and
`round((40/L) × 30)` when `L > 30`. -/
theorem c2_nameLength_bands (name addr : String) (raw : RawSignals)
    (h : 0 < name.length) :
    (15 ≤ name.length → name.length ≤ 30 →
      (calculateSEOMetrics name addr raw).details.nameLength = 30) ∧
    (name.length < 15 →
      (calculateSEOMetrics name addr raw).details.nameLength =
        ((jsRound ((name.length : ℚ) / 15 * 30) : ℤ) : ℚ)) ∧
    (30 < name.length →
      (calculateSEOMetrics name addr raw).details.nameLength =
        ((jsRound (40 / (name.length : ℚ) * 30) : ℤ) : ℚ)) := by
  have e : (calculateSEOMetrics name addr raw).details.nameLength = nameLengthScore name := rfl
  rw [e]
  unfold nameLengthScore
  refine ⟨?_, ?_, ?_⟩
  · intro h1 h2
    rw [if_pos h, if_pos ⟨h1, h2⟩]
  · intro h1
    rw [if_pos h, if_neg (by omega), if_pos h1]
  · intro h1
    rw [if_pos h, if_neg (by omega), if_neg (by omega)]

/-- Witness for C2: a 16-character name scores 30, the 4-character name
"Joes" scores `round(4/15 × 30) = 8`, and a 40-character name scores
`round((40/40) × 30) = 30`. -/
theorem c2_nameLength_bands_witness :
    0 < ("Pizza Place Club").length ∧
    (calculateSEOMetrics "Pizza Place Club" "a" rawA).details.nameLength = 30 ∧
    (calculateSEOMetrics "Joes" "a" rawA).details.nameLength = 8 ∧
    (calculateSEOMetrics "Business Business Business Business Busi" "a"
      rawA).details.nameLength = 30 :=
  ⟨by decide,
   (c2_nameLength_bands "Pizza Place Club" "a" rawA (by decide)).1 (by decide) (by decide),
   ((c2_nameLength_bands "Joes" "a" rawA (by decide)).2.1 (by decide)).trans
     (by norm_num [show ("Joes").length = 4 from rfl, jsRound]),
   ((c2_nameLength_bands "Business Business Business Business Busi" "a" rawA
       (by decide)).2.2 (by decide)).trans
     (by norm_num [show ("Business Business Business Business Busi").length = 40 from rfl,
       jsRound])⟩

/-- C3 counterexample: the claim scores a name by its whitespace-separated
token count, but the code splits on the single space character and counts
empty pieces. For the name "a  b" (two spaces) the whitespace token count is
2, so the claim predicts `min(2 × 10, 30) = 20`, while the code produces
`min(3 × 10, 30) = 30`. -/
theorem c3_keyword_claim_counterexample :
    (calculateSEOMetrics "a  b" "x" rawA).details.keywordOptimization ≠
      ((min (specWhitespaceTokenCount "a  b" * 10) 30 : ℕ) : ℚ) := by decide

/-- C3 (amended): for every non-empty business name, the keywordOptimization
sub-score equals `min(pieceCount × 10, 30)`, where `pieceCount` is the number
of pieces obtained by splitting the lower-cased name at every single space
character, counting empty pieces (the empty name scores 0, handled by C7). -/
theorem c3_keyword_pieces (name addr : String) (raw : RawSignals)
    (h : 0 < name.length) :
    (calculateSEOMetrics name addr raw).details.keywordOptimization =
      ((min (keywordCount name * 10) 30 : ℕ) : ℚ) := by
  have e : (calculateSEOMetrics name addr raw).details.keywordOptimization =
      keywordOptimizationScore name := rfl
  rw [e]
  unfold keywordOptimizationScore
  rw [if_pos h]

/-- Witness for C3: the name "a  b" is non-empty and scores
`min(3 × 10, 30) = 30`. -/
theorem c3_keyword_pieces_witness :
    0 < ("a  b").length ∧
    (calculateSEOMetrics "a  b" "x" rawA).details.keywordOptimization = 30 :=
  ⟨by decide, (c3_keyword_pieces "a  b" "x" rawA (by decide)).trans (by decide)⟩

/-- C4: for all input strings and all raw signals with ratings in `[0, 5]`,
every sub-score of the computed composite score lies in `[0, 100]` and the
total is an integer in `[0, 100]` equal to the rounded unweighted mean of
the seven sub-scores. -/
theorem c4_score_invariants (name addr : String) (raw : RawSignals)
    (hg0 : 0 ≤ raw.reviews.google.rating) (hg5 : raw.reviews.google.rating ≤ 5)
    (hy0 : 0 ≤ raw.reviews.yelp.rating) (hy5 : raw.reviews.yelp.rating ≤ 5) :
    scoreInvariant (calculateSEOMetrics name addr raw) := by
  have d : (calculateSEOMetrics name addr raw).details = scoreDetails name addr raw := rfl
  have t : (calculateSEOMetrics name addr raw).total =
      jsRound (detailsSum (scoreDetails name addr raw) / 7) := rfl
  have h1 := nameLengthScore_nonneg name
  have h1' := nameLengthScore_le name
  have h2 := addressCompletenessScore_nonneg addr
  have h2' := addressCompletenessScore_le addr
  have h3 := keywordOptimizationScore_nonneg name
  have h3' := keywordOptimizationScore_le name
  have h4 := googleRankingScore_nonneg raw.searchRanking.googlePosition
  have h4' := googleRankingScore_le raw.searchRanking.googlePosition
  have h5 := socialMediaPresenceScore_nonneg raw.socialMedia
  have h5' := socialMediaPresenceScore_le raw.socialMedia
  have h6 := localSEOScore_bounds raw.reviews hg0 hy0
  have h7 := onlineReviewsScore_bounds raw.reviews hg0 hy0
  have hsum0 : 0 ≤ detailsSum (scoreDetails name addr raw) := by
    unfold detailsSum
    simp only [scoreDetails]
    linarith [h6.1, h7.1]
  have hsum : detailsSum (scoreDetails name addr raw) ≤ 700 := by
    unfold detailsSum
    simp only [scoreDetails]
    linarith [h6.2, h7.2]
  unfold scoreInvariant
  rw [t, d]
  simp only [scoreDetails] at hsum0 hsum ⊢
  refine ⟨⟨h1, h1'⟩, ⟨h2, h2'⟩, ⟨h3, h3'⟩, ⟨h4, h4'⟩, ⟨h5, h5'⟩, h6, h7, ⟨?_, ?_⟩, trivial⟩
  · exact jsRound_nonneg (by linarith)
  · exact jsRound_le_hundred (by linarith)

/-- Witness for C4: the concrete snapshot `rawA` has ratings in `[0, 5]` and
the resulting composite score satisfies the invariant. -/
theorem c4_score_invariants_witness :
    (0 ≤ rawA.reviews.google.rating ∧ rawA.reviews.google.rating ≤ 5 ∧
      0 ≤ rawA.reviews.yelp.rating ∧ rawA.reviews.yelp.rating ≤ 5) ∧
    scoreInvariant (calculateSEOMetrics "Pizza Place Club" "1 Main St, Springfield" rawA) :=
  ⟨⟨by decide, by decide, by decide, by decide⟩,
   c4_score_invariants "Pizza Place Club" "1 Main St, Springfield" rawA
     (by decide) (by decide) (by decide) (by decide)⟩

/-- C5: the recommendation derivation evaluates exactly three rules in a
fixed order — search-engine ranking (status poor, priority high) iff
`googleRanking < 70`, social-media presence (status warning, priority
medium, message comma-joining the missing platforms) iff some platform is
missing, online reviews (status warning, priority high) iff the google
count is below 100 or the yelp count is below 50 — each appending at most
one recommendation, so the result has length at most 3 and is ordered by
rule evaluation order. -/
theorem c5_rule_order_and_contents (score : SeoScore) :
    (generateRecommendations score =
      (if score.details.googleRanking < 70 then [googleRankingRec score] else []) ++
      (if 0 < (missingSocialPlatforms score.socialMedia).length then [socialMediaRec score]
        else []) ++
      (if score.reviews.google.count < 100 ∨ score.reviews.yelp.count < 50 then
        [onlineReviewsRec score] else [])) ∧
    (generateRecommendations score).length ≤ 3 := by
  refine ⟨generateRecommendations_normal_form score, ?_⟩
  rw [generateRecommendations_normal_form score]
  split_ifs <;> simp

/-- C6: the googleRanking sub-score equals `max(0, 100 − googlePosition)`;
in particular position 0 yields 100 and any position at least 100 yields 0. -/
theorem c6_googleRanking_clamped (name addr : String) (raw : RawSignals) :
    ((calculateSEOMetrics name addr raw).details.googleRanking =
      ((max 0 (100 - (raw.searchRanking.googlePosition : ℤ)) : ℤ) : ℚ)) ∧
    (raw.searchRanking.googlePosition = 0 →
      (calculateSEOMetrics name addr raw).details.googleRanking = 100) ∧
    (100 ≤ raw.searchRanking.googlePosition →
      (calculateSEOMetrics name addr raw).details.googleRanking = 0) := by
  have e : (calculateSEOMetrics name addr raw).details.googleRanking =
      googleRankingScore raw.searchRanking.googlePosition := rfl
  refine ⟨rfl, ?_, ?_⟩
  · intro h
    rw [e, h]
    decide
  · intro h
    rw [e]
    unfold googleRankingScore
    have hm : max 0 (100 - (raw.searchRanking.googlePosition : ℤ)) = 0 := by omega
    rw [hm]
    norm_num

/-- Witness for C6: position 0 yields a ranking sub-score of 100 and
position 150 yields 0. -/
theorem c6_googleRanking_clamped_witness :
    (calculateSEOMetrics "x" "y" (withGooglePosition rawA 0)).details.googleRanking = 100 ∧
    (calculateSEOMetrics "x" "y" (withGooglePosition rawA 150)).details.googleRanking = 0 :=
  ⟨(c6_googleRanking_clamped "x" "y" (withGooglePosition rawA 0)).2.1 rfl,
   (c6_googleRanking_clamped "x" "y" (withGooglePosition rawA 150)).2.2 (by decide)⟩

/-- C7: the addressCompleteness sub-score equals
`min(segmentCount × 10, 40)` for a non-empty address, where `segmentCount`
counts the comma-separated segments; the empty address yields 0 rather than
an error, and the empty business name likewise yields zero-valued name
sub-scores. -/
theorem c7_addressCompleteness_formula (name addr : String) (raw : RawSignals) :
    ((calculateSEOMetrics name addr raw).details.addressCompleteness =
      if 0 < addr.length then ((min (addressPartsCount addr * 10) 40 : ℕ) : ℚ) else 0) ∧
    ((calculateSEOMetrics name "" raw).details.addressCompleteness = 0) ∧
    ((calculateSEOMetrics "" addr raw).details.nameLength = 0 ∧
      (calculateSEOMetrics "" addr raw).details.keywordOptimization = 0) :=
  ⟨rfl, rfl, rfl, rfl⟩

/-- C8: the overall status classifier returns GOOD exactly when
`total ≥ 70`, FAIR exactly when `40 ≤ total < 70`, and POOR otherwise, each
band inclusive at its lower bound and exclusive at its upper bound. -/
theorem c8_overall_status_bands (total : ℤ) :
    ((getOverallStatus total).text = "GOOD" ↔ 70 ≤ total) ∧
    ((getOverallStatus total).text = "FAIR" ↔ 40 ≤ total ∧ total < 70) ∧
    ((getOverallStatus total).text = "POOR" ↔ total < 40) := by
  unfold getOverallStatus
  split_ifs with h1 h2 <;> refine ⟨?_, ?_, ?_⟩ <;> simp <;> omega

/-- Witness for C8: totals 85, 55 and 12 classify as GOOD, FAIR and POOR. -/
theorem c8_overall_status_bands_witness :
    (getOverallStatus 85).text = "GOOD" ∧ (getOverallStatus 55).text = "FAIR" ∧
      (getOverallStatus 12).text = "POOR" :=
  ⟨(c8_overall_status_bands 85).1.mpr (by decide),
   (c8_overall_status_bands 55).2.1.mpr (by decide),
   (c8_overall_status_bands 12).2.2.mpr (by decide)⟩

/-- C9: when the data-source fetch fails, the stored score and
recommendations are left unchanged (no partially computed score appears)
and the caller-visible error becomes the single uniform message. -/
theorem c9_fetch_failure_preserves_state (st : UIState) (name addr : String) (e : Unit) :
    (calculateSeoScore st name addr (Except.error e)).seoScore = st.seoScore ∧
    (calculateSeoScore st name addr (Except.error e)).recommendations = st.recommendations ∧
    (calculateSeoScore st name addr (Except.error e)).error =
      some "Failed to calculate SEO score. Please try again." :=
  ⟨rfl, rfl, rfl⟩

/-- C10: every recommendation ever emitted has priority high or medium; the
low priority admitted by the `Recommendation` type is never produced. -/
theorem c10_priority_never_low (score : SeoScore) (r : Recommendation)
    (h : r ∈ generateRecommendations score) :
    r.priority = RecPriority.high ∨ r.priority = RecPriority.medium := by
  rcases mem_generateRecommendations score r h with rfl | rfl | rfl
  · left; rfl
  · right; rfl
  · left; rfl

/-- Witness for C10: with a poor google position the search-ranking
recommendation is emitted, and its priority is high or medium. -/
theorem c10_priority_never_low_witness :
    (googleRankingRec (calculateSEOMetrics "Pizza Place Club" "1 Main St, Springfield"
      rawLow)).priority = RecPriority.high ∨
    (googleRankingRec (calculateSEOMetrics "Pizza Place Club" "1 Main St, Springfield"
      rawLow)).priority = RecPriority.medium :=
  c10_priority_never_low
    (calculateSEOMetrics "Pizza Place Club" "1 Main St, Springfield" rawLow)
    (googleRankingRec (calculateSEOMetrics "Pizza Place Club" "1 Main St, Springfield" rawLow))
    (by decide)

end SeoScorer
